import Mathlib

/-!
Verification of the FieldLink pump-controller firmware core.

This file gives a shallow embedding, in Lean, of the protection/state engine,
the MQTT command handler, the Ruraflex time-of-use evaluator
(projects/pump-controller/src/main.cpp), the Modbus sensor-read bookkeeping
(shared/FieldLinkCore/src/fl_modbus.cpp) and the MQTT reconnect bookkeeping
(shared/FieldLinkCore/src/fl_comms.cpp), and proves properties of these
definitions.

Modelling conventions:
* C `float` current/voltage values are modelled as rationals (`Rat`); the
  comparisons performed by the code on non-NaN floats mirror the rational
  order.  A raw sensor sample that may be NaN/Inf is modelled as `Option Rat`
  with `none` for the non-finite case.
* `millis()` timestamps (C `unsigned long`) are modelled as `Nat`.  The
  firmware only ever subtracts an earlier recorded timestamp from the current
  one, so within the (49-day) wrap period the unsigned subtraction agrees
  with truncated `Nat` subtraction.
* Global mutable state is gathered into explicit state records; each C
  function becomes a state-passing Lean function.
-/

namespace FieldLink

/-- Embedding of `enum PumpState { STOPPED, RUNNING, FAULT }` from main.cpp. -/
inductive PumpState where
  | STOPPED
  | RUNNING
  | FAULT
deriving DecidableEq, Repr

/-- Embedding of `enum FaultType { NO_FAULT, OVERCURRENT, DRY_RUN, SENSOR_FAULT }` from main.cpp. -/
inductive FaultType where
  | NO_FAULT
  | OVERCURRENT
  | DRY_RUN
  | SENSOR_FAULT
deriving DecidableEq, Repr

open PumpState FaultType

/-- Constant `RUN_THRESHOLD 5.0` from main.cpp. -/
def RUN_THRESHOLD : Rat := 5

/-- Constant `HYSTERESIS_CURRENT 1.0` from main.cpp. -/
def HYSTERESIS_CURRENT : Rat := 1

/-- Constant `STATE_DEBOUNCE_COUNT 3` from main.cpp. -/
def STATE_DEBOUNCE_COUNT : Nat := 3

/-- Constant `START_TIMEOUT 10000` from main.cpp (milliseconds). -/
def START_TIMEOUT : Nat := 10000

/-- Constant `FAULT_AUTO_RESET_MS 0` from main.cpp (auto fault reset disabled). -/
def FAULT_AUTO_RESET_MS : Nat := 0

/-- Constant `FL_MAX_MODBUS_FAILURES 5` from fl_modbus.h. -/
def FL_MAX_MODBUS_FAILURES : Nat := 5

/-- Constant `FL_MAX_MQTT_CONNECT_FAILURES 3` from fl_comms.h. -/
def FL_MAX_MQTT_CONNECT_FAILURES : Nat := 3

/-- The global mutable state of the pump controller that the protection/state
engine and the MQTT command handler read and write (main.cpp globals). -/
structure PumpSt where
  state : PumpState
  pendingState : PumpState
  faultType : FaultType
  startCommand : Bool
  startCommandTime : Nat
  stateDebounceCounter : Nat
  faultTimestamp : Nat
  faultCurrentA : Rat
  faultCurrentB : Rat
  faultCurrentC : Rat
  maxCurrentThreshold : Rat
  dryCurrentThreshold : Rat
  overcurrentProtectionEnabled : Bool
  dryRunProtectionEnabled : Bool
  overcurrentDelayS : Nat
  dryrunDelayS : Nat
  overcurrentStartTime : Nat
  overcurrentConditionActive : Bool
  dryrunStartTime : Nat
  dryrunConditionActive : Bool
  scheduleEnabled : Bool
  scheduleStartHour : Nat
  scheduleStartMinute : Nat
  scheduleEndHour : Nat
  scheduleEndMinute : Nat
  scheduleDays : Nat
  ruraflexEnabled : Bool
  contactorDO : Bool
  faultDO : Bool
  Ia : Rat
  Ib : Rat
  Ic : Rat
  sensorOnline : Bool
  modbusFailCount : Nat
deriving DecidableEq, Repr

/-- The C globals as initialized at the top of main.cpp / fl_modbus.cpp. -/
def initialPumpState : PumpSt where
  state := STOPPED
  pendingState := STOPPED
  faultType := NO_FAULT
  startCommand := false
  startCommandTime := 0
  stateDebounceCounter := 0
  faultTimestamp := 0
  faultCurrentA := 0
  faultCurrentB := 0
  faultCurrentC := 0
  maxCurrentThreshold := 120
  dryCurrentThreshold := 1/2
  overcurrentProtectionEnabled := true
  dryRunProtectionEnabled := true
  overcurrentDelayS := 0
  dryrunDelayS := 0
  overcurrentStartTime := 0
  overcurrentConditionActive := false
  dryrunStartTime := 0
  dryrunConditionActive := false
  scheduleEnabled := false
  scheduleStartHour := 6
  scheduleStartMinute := 0
  scheduleEndHour := 18
  scheduleEndMinute := 0
  scheduleDays := 127
  ruraflexEnabled := false
  contactorDO := false
  faultDO := false
  Ia := 0
  Ib := 0
  Ic := 0
  sensorOnline := false
  modbusFailCount := 0

/-- One sensing tick's environment: the value of `millis()` and the values the
sensor-read step left in `fl_Ia/fl_Ib/fl_Ic`, `fl_sensorOnline`,
`fl_modbusFailCount` just before `updateState()` runs. -/
structure TickIn where
  now : Nat
  Ia : Rat
  Ib : Rat
  Ic : Rat
  sensorOnline : Bool
  modbusFailCount : Nat
deriving DecidableEq, Repr

/-- Install the sensor-read results into the controller state (the effect of
`fl_readSensors()` on the globals the engine reads). -/
def setSensors (s : PumpSt) (i : TickIn) : PumpSt :=
  { s with Ia := i.Ia, Ib := i.Ib, Ic := i.Ic,
           sensorOnline := i.sensorOnline, modbusFailCount := i.modbusFailCount }

/-- Function `getMaxCurrent()` from main.cpp. -/
def getMaxCurrent (s : PumpSt) : Rat :=
  let m1 := s.Ia
  let m2 := if s.Ib > m1 then s.Ib else m1
  if s.Ic > m2 then s.Ic else m2

/-- Function `triggerFault(type)` from main.cpp: one-shot fault latch. -/
def triggerFault (s : PumpSt) (t : FaultType) (now : Nat) : PumpSt :=
  if s.state ≠ FAULT then
    { s with state := FAULT, faultType := t, faultTimestamp := now,
             faultCurrentA := s.Ia, faultCurrentB := s.Ib, faultCurrentC := s.Ic,
             startCommand := false, contactorDO := false, faultDO := true }
  else s

/-- Function `resetFault()` from main.cpp. -/
def resetFault (s : PumpSt) : PumpSt :=
  if s.state = FAULT then
    { s with state := STOPPED, faultType := NO_FAULT, pendingState := STOPPED,
             stateDebounceCounter := 0, startCommand := false, faultDO := false }
  else s

/-- The steady-state-with-hysteresis tail of `evaluateState()`. -/
def evalSteady (s : PumpSt) : PumpState :=
  let maxCurrent := getMaxCurrent s
  if s.state = RUNNING then
    if maxCurrent < RUN_THRESHOLD - HYSTERESIS_CURRENT then STOPPED else RUNNING
  else
    if maxCurrent > RUN_THRESHOLD then RUNNING else STOPPED

/-- The start-failure-timeout block of `evaluateState()` followed by the
steady-state tail. -/
def evalStartTimeout (s : PumpSt) (now : Nat) : PumpSt × PumpState :=
  if START_TIMEOUT > 0 ∧ s.startCommand = true ∧ s.state ≠ RUNNING
      ∧ now - s.startCommandTime > START_TIMEOUT then
    (s, FAULT)
  else
    (s, evalSteady s)

/-- The dry-run-detection block of `evaluateState()` followed by the rest of
the function. -/
def evalDryRun (s : PumpSt) (now : Nat) : PumpSt × PumpState :=
  let maxCurrent := getMaxCurrent s
  if s.dryRunProtectionEnabled = true ∧ s.dryCurrentThreshold > 0
      ∧ s.startCommand = true ∧ s.state = RUNNING then
    if maxCurrent < s.dryCurrentThreshold then
      let s1 := if s.dryrunConditionActive = false then
                  { s with dryrunConditionActive := true, dryrunStartTime := now }
                else s
      if s1.dryrunDelayS = 0 ∨ now - s1.dryrunStartTime ≥ s1.dryrunDelayS * 1000 then
        (s1, FAULT)
      else
        evalStartTimeout s1 now
    else
      evalStartTimeout { s with dryrunConditionActive := false } now
  else
    evalStartTimeout { s with dryrunConditionActive := false } now

/-- Function `evaluateState()` from main.cpp (BENCH_TEST_MODE is false, so the dry-run
and start-timeout blocks are compiled in).  The returned `PumpSt` carries the
updates to the overcurrent/dry-run condition timers; the returned `PumpState`
is the function's return value. -/
def evaluateState (s : PumpSt) (now : Nat) : PumpSt × PumpState :=
  if s.overcurrentProtectionEnabled = true
      ∧ (s.Ia > s.maxCurrentThreshold ∨ s.Ib > s.maxCurrentThreshold
          ∨ s.Ic > s.maxCurrentThreshold) then
    let s1 := if s.overcurrentConditionActive = false then
                { s with overcurrentConditionActive := true, overcurrentStartTime := now }
              else s
    if s1.overcurrentDelayS = 0 ∨ now - s1.overcurrentStartTime ≥ s1.overcurrentDelayS * 1000 then
      (s1, FAULT)
    else
      evalDryRun s1 now
  else
    evalDryRun { s with overcurrentConditionActive := false } now

/-- Function `updateState()` from main.cpp. -/
def updateState (s : PumpSt) (now : Nat) : PumpSt :=
  if s.state = FAULT then
    if FAULT_AUTO_RESET_MS > 0 ∧ now - s.faultTimestamp > FAULT_AUTO_RESET_MS then
      resetFault s
    else s
  else if s.sensorOnline = false ∧ s.modbusFailCount ≥ FL_MAX_MODBUS_FAILURES then
    triggerFault s SENSOR_FAULT now
  else
    let es := evaluateState s now
    let s1 := es.1
    let target := es.2
    if target = FAULT then
      if getMaxCurrent s1 > s1.maxCurrentThreshold then
        triggerFault s1 OVERCURRENT now
      else
        triggerFault s1 DRY_RUN now
    else if target ≠ s1.state then
      if target = s1.pendingState then
        if s1.stateDebounceCounter + 1 ≥ STATE_DEBOUNCE_COUNT then
          { s1 with state := target, stateDebounceCounter := 0 }
        else
          { s1 with stateDebounceCounter := s1.stateDebounceCounter + 1 }
      else
        { s1 with pendingState := target, stateDebounceCounter := 1 }
    else
      { s1 with stateDebounceCounter := 0, pendingState := s1.state }

/-- One sensing tick of the main loop: `fl_readSensors()` results installed,
then `updateState()`. -/
def tick (s : PumpSt) (i : TickIn) : PumpSt :=
  updateState (setSensors s i) i.now

/-- A sequence of sensing ticks. -/
def runTicks (s : PumpSt) (l : List TickIn) : PumpSt :=
  l.foldl tick s

/-! ## MQTT command handler (pumpMqttCallback, main.cpp) -/

/-- Fields of a `SET_THRESHOLDS` JSON payload; `none` models an absent key. -/
structure ThresholdsPayload where
  max_current : Option Rat
  dry_current : Option Rat
deriving DecidableEq, Repr

/-- Fields of a `SET_DELAYS` JSON payload (values are `uint32_t`). -/
structure DelaysPayload where
  overcurrent_delay_s : Option Nat
  dryrun_delay_s : Option Nat
deriving DecidableEq, Repr

/-- Fields of a `SET_PROTECTION` JSON payload. -/
structure ProtectionPayload where
  overcurrent_enabled : Option Bool
  dryrun_enabled : Option Bool
deriving DecidableEq, Repr

/-- Fields of a `SET_SCHEDULE` JSON payload. -/
structure SchedulePayload where
  enabled : Option Bool
  start_hour : Option Nat
  start_minute : Option Nat
  end_hour : Option Nat
  end_minute : Option Nat
  days : Option Nat
deriving DecidableEq, Repr

/-- The commands `pumpMqttCallback` distinguishes.  `UNKNOWN` stands for any
payload that matches none of the recognized verbs/JSON commands. -/
inductive Cmd where
  | START
  | STOP
  | RESET
  | STATUS
  | UPDATE_FIRMWARE
  | SET_PROTECTION (p : ProtectionPayload)
  | SET_THRESHOLDS (p : ThresholdsPayload)
  | SET_DELAYS (p : DelaysPayload)
  | SET_SCHEDULE (p : SchedulePayload)
  | SET_RURAFLEX (enabled : Option Bool)
  | GET_SETTINGS
  | UNKNOWN
deriving DecidableEq, Repr

/-- Function `pumpMqttCallback(cmd, length)` from main.cpp, as a function of the
controller state, the current `remoteMode` input (DI3) and `millis()`.
`STATUS`/`GET_SETTINGS` only emit telemetry and change none of the modelled
state. -/
def pumpMqttCallback (s : PumpSt) (remoteMode : Bool) (now : Nat) : Cmd → PumpSt
  | Cmd.UPDATE_FIRMWARE =>
      { s with startCommand := false, contactorDO := false }
  | Cmd.START =>
      if remoteMode = false then s
      else if s.state = FAULT then s
      else { s with startCommand := true, startCommandTime := now }
  | Cmd.STOP =>
      let s1 := { s with startCommand := false, contactorDO := false }
      if s1.state ≠ FAULT then { s1 with state := STOPPED } else s1
  | Cmd.RESET =>
      if s.state = FAULT then resetFault s else s
  | Cmd.STATUS => s
  | Cmd.SET_PROTECTION p =>
      let s1 := match p.overcurrent_enabled with
        | some b => { s with overcurrentProtectionEnabled := b }
        | none => s
      match p.dryrun_enabled with
        | some b => { s1 with dryRunProtectionEnabled := b }
        | none => s1
  | Cmd.SET_THRESHOLDS p =>
      let s1 := match p.max_current with
        | some v => if v ≥ 1 ∧ v ≤ 500 then { s with maxCurrentThreshold := v } else s
        | none => s
      match p.dry_current with
        | some v => if v ≥ 0 ∧ v ≤ 50 then { s1 with dryCurrentThreshold := v } else s1
        | none => s1
  | Cmd.SET_DELAYS p =>
      let s1 := match p.overcurrent_delay_s with
        | some v => if v ≤ 30 then { s with overcurrentDelayS := v } else s
        | none => s
      match p.dryrun_delay_s with
        | some v => if v ≤ 30 then { s1 with dryrunDelayS := v } else s1
        | none => s1
  | Cmd.SET_SCHEDULE p =>
      let s1 := match p.enabled with
        | some b => { s with scheduleEnabled := b }
        | none => s
      let s2 := match p.start_hour with
        | some v => { s1 with scheduleStartHour := v }
        | none => s1
      let s3 := match p.start_minute with
        | some v => { s2 with scheduleStartMinute := v }
        | none => s2
      let s4 := match p.end_hour with
        | some v => { s3 with scheduleEndHour := v }
        | none => s3
      let s5 := match p.end_minute with
        | some v => { s4 with scheduleEndMinute := v }
        | none => s4
      match p.days with
        | some v => { s5 with scheduleDays := v }
        | none => s5
  | Cmd.SET_RURAFLEX e =>
      let s1 := match e with
        | some b => { s with ruraflexEnabled := b }
        | none => s
      if s1.ruraflexEnabled = true ∧ s1.scheduleEnabled = true then
        { s1 with scheduleEnabled := false }
      else s1
  | Cmd.GET_SETTINGS => s
  | Cmd.UNKNOWN => s

/-! ## Ruraflex time-of-use evaluator (isWithinRuraflex, main.cpp) -/

/-- The wall-clock fields `isWithinRuraflex()` reads from `getLocalTime`:
`tm_mon + 1`, `tm_wday`, and `tm_hour * 60 + tm_min`. -/
structure LocalTime where
  month : Nat
  dayOfWeek : Nat
  nowMins : Nat
deriving DecidableEq, Repr

/-- Predicate `isHighDemandSeason = (month >= 6 && month <= 8)` from main.cpp. -/
def isHighDemandSeason (month : Nat) : Bool :=
  6 ≤ month && month ≤ 8

/-- Predicate `isWeekday = (dayOfWeek >= 1 && dayOfWeek <= 5)` from main.cpp. -/
def isWeekday (d : Nat) : Bool :=
  1 ≤ d && d ≤ 5

/-- The `isPeak` classification computed by `isWithinRuraflex()`. -/
def ruraflexIsPeak (t : LocalTime) : Bool :=
  if isWeekday t.dayOfWeek then
    if isHighDemandSeason t.month then
      (360 ≤ t.nowMins && t.nowMins < 480) || (1020 ≤ t.nowMins && t.nowMins < 1200)
    else
      (420 ≤ t.nowMins && t.nowMins < 540) || (1020 ≤ t.nowMins && t.nowMins < 1200)
  else false

/-- The `isStandard` classification computed by `isWithinRuraflex()`. -/
def ruraflexIsStandard (t : LocalTime) : Bool :=
  if isWeekday t.dayOfWeek then
    if isHighDemandSeason t.month then
      (480 ≤ t.nowMins && t.nowMins < 1020) || (1200 ≤ t.nowMins && t.nowMins < 1320)
    else
      (360 ≤ t.nowMins && t.nowMins < 420) || (540 ≤ t.nowMins && t.nowMins < 1020)
        || (1200 ≤ t.nowMins && t.nowMins < 1320)
  else
    (420 ≤ t.nowMins && t.nowMins < 720) || (1080 ≤ t.nowMins && t.nowMins < 1200)

/-- Function `isWithinRuraflex()` from main.cpp.  A `none` time models a failed
`getLocalTime` call (the evaluator fails open); the result is
`isOffPeak = !isPeak && !isStandard`. -/
def isWithinRuraflex (ruraflexOn : Bool) (t : Option LocalTime) : Bool :=
  if !ruraflexOn then true
  else
    match t with
    | none => true
    | some lt => !(ruraflexIsPeak lt) && !(ruraflexIsStandard lt)

/-! ## Modbus sensor reads (fl_readSensors, fl_modbus.cpp) -/

/-- The sensor-side globals of fl_modbus.cpp. -/
structure SensorSt where
  Va : Rat
  Vb : Rat
  Vc : Rat
  Ia : Rat
  Ib : Rat
  Ic : Rat
  sensorOnline : Bool
  modbusFailCount : Nat
deriving DecidableEq, Repr

/-- The initial values of the fl_modbus.cpp globals. -/
def initialSensorState : SensorSt where
  Va := 0
  Vb := 0
  Vc := 0
  Ia := 0
  Ib := 0
  Ic := 0
  sensorOnline := false
  modbusFailCount := 0

/-- One Modbus transaction's outcome: whether the bus transaction succeeded
(`readInputRegisters` returned `ku8MBSuccess`) and, if so, the decoded float
values.  `none` models a NaN/Inf decode. -/
structure ReadIn where
  busOk : Bool
  rVa : Option Rat
  rVb : Option Rat
  rVc : Option Rat
  rIa : Option Rat
  rIb : Option Rat
  rIc : Option Rat
deriving DecidableEq, Repr

/-- Predicate `isValidCurrent()` from fl_modbus.cpp: false for NaN/Inf, false outside
`[-0.5, 500.0]`. -/
def isValidCurrent : Option Rat → Bool
  | none => false
  | some c => !(c < -(1/2) || c > 500)

/-- Predicate `isValidVoltage()` from fl_modbus.cpp: false for NaN/Inf, false outside
`[0, 500]`. -/
def isValidVoltage : Option Rat → Bool
  | none => false
  | some v => !(v < 0 || v > 500)

/-- Function `fl_readSensors()` from fl_modbus.cpp: returns the updated globals and the
function's boolean result. -/
def fl_readSensors (s : SensorSt) (r : ReadIn) : SensorSt × Bool :=
  if r.busOk = false then
    let c := s.modbusFailCount + 1
    ({ s with modbusFailCount := c,
              sensorOnline := if c ≥ FL_MAX_MODBUS_FAILURES then false else s.sensorOnline },
     false)
  else
    let s1 := { s with modbusFailCount := 0, sensorOnline := true }
    let s2 := if isValidVoltage r.rVa && isValidVoltage r.rVb && isValidVoltage r.rVc then
                { s1 with Va := r.rVa.getD 0, Vb := r.rVb.getD 0, Vc := r.rVc.getD 0 }
              else s1
    if !(isValidCurrent r.rIa) || !(isValidCurrent r.rIb) || !(isValidCurrent r.rIc) then
      (s2, false)
    else
      ({ s2 with Ia := r.rIa.getD 0, Ib := r.rIb.getD 0, Ic := r.rIc.getD 0 }, true)

/-- A sequence of sensor-read attempts. -/
def runReads (s : SensorSt) (l : List ReadIn) : SensorSt :=
  l.foldl (fun s r => (fl_readSensors s r).1) s

/-- The condition under which `updateState()` escalates to a sensor fault:
`!fl_sensorOnline && fl_modbusFailCount >= FL_MAX_MODBUS_FAILURES`. -/
def sensorFaultGuard (s : SensorSt) : Prop :=
  s.sensorOnline = false ∧ s.modbusFailCount ≥ FL_MAX_MODBUS_FAILURES

/-! ## MQTT reconnect bookkeeping (fl_reconnectMQTT, fl_comms.cpp) -/

/-- The connection-state globals of fl_comms.cpp that the reconnect attempt
branch reads and writes. -/
structure CommsSt where
  useEthernet : Bool
  ethernetConnected : Bool
  wifiConnected : Bool
  mqttConnected : Bool
  mqttConnectFailCount : Nat
deriving DecidableEq, Repr

/-- The MQTT connect-attempt branch of `fl_reconnectMQTT()` (fl_comms.cpp
lines 329-366): one `fl_mqtt.connect` attempt and its bookkeeping.
`connectOk` is the result of the broker connect; `wifiJoinOk` is whether the
WiFi join inside the Ethernet-fallback branch reached `WL_CONNECTED` within
its 15 s budget. -/
def fl_reconnectAttempt (s : CommsSt) (connectOk : Bool) (wifiJoinOk : Bool) : CommsSt :=
  if connectOk then
    { s with mqttConnected := true, mqttConnectFailCount := 0 }
  else
    let s1 := { s with mqttConnected := false,
                       mqttConnectFailCount := s.mqttConnectFailCount + 1 }
    if s1.useEthernet = true ∧ s1.mqttConnectFailCount ≥ FL_MAX_MQTT_CONNECT_FAILURES then
      let s2 := { s1 with mqttConnectFailCount := 0, useEthernet := false,
                          ethernetConnected := false }
      if wifiJoinOk then { s2 with wifiConnected := true } else s2
    else s1

/-- The per-tick evaluated target state: the value `evaluateState()` returns
during the tick with inputs `i` from state `s`. -/
def evalTarget (s : PumpSt) (i : TickIn) : PumpState :=
  (evaluateState (setSensors s i) i.now).2

/-- The latched overcurrent-fault outcome: Fault state, Overcurrent kind, and
contactor output de-energized. -/
def ocFaulted (s : PumpSt) : Prop :=
  s.state = FAULT ∧ s.faultType = OVERCURRENT ∧ s.contactorDO = false

/-- Invariant carried through an overcurrent window that started at time
`t0`: protection stays enabled with unchanged threshold `th` and delay `d`,
and the pump is either still live with the condition timer running from `t0`,
or already latched as an overcurrent fault with the contactor off. -/
def ocInv (th : Rat) (d t0 : Nat) (s : PumpSt) : Prop :=
  s.overcurrentProtectionEnabled = true ∧ s.maxCurrentThreshold = th
  ∧ s.overcurrentDelayS = d
  ∧ ((s.state ≠ FAULT ∧ s.overcurrentConditionActive = true
      ∧ s.overcurrentStartTime = t0)
     ∨ ocFaulted s)

/-- A tick input inside an overcurrent window that began at time `t0`: some
phase exceeds the threshold `th`, the sensor is online, and the clock has not
run backwards past `t0`. -/
def goodIn (th : Rat) (t0 : Nat) (i : TickIn) : Prop :=
  (i.Ia > th ∨ i.Ib > th ∨ i.Ic > th) ∧ i.sensorOnline = true ∧ t0 ≤ i.now

/-! ## Helper lemmas -/

theorem getMaxCurrent_gt {s : PumpSt} {th : Rat}
    (h : s.Ia > th ∨ s.Ib > th ∨ s.Ic > th) : getMaxCurrent s > th := by
  simp only [getMaxCurrent]
  rcases h with h | h | h <;> split_ifs <;> linarith

theorem evalStartTimeout_fst (s : PumpSt) (now : Nat) :
    (evalStartTimeout s now).1 = s := by
  unfold evalStartTimeout
  split <;> rfl

/-- Lemma: `evalDryRun` only updates the dry-run condition timer fields. -/
theorem evalDryRun_fst (s : PumpSt) (now : Nat) :
    (evalDryRun s now).1.state = s.state
    ∧ (evalDryRun s now).1.pendingState = s.pendingState
    ∧ (evalDryRun s now).1.stateDebounceCounter = s.stateDebounceCounter
    ∧ (evalDryRun s now).1.faultType = s.faultType
    ∧ (evalDryRun s now).1.maxCurrentThreshold = s.maxCurrentThreshold
    ∧ (evalDryRun s now).1.overcurrentProtectionEnabled = s.overcurrentProtectionEnabled
    ∧ (evalDryRun s now).1.overcurrentDelayS = s.overcurrentDelayS
    ∧ (evalDryRun s now).1.overcurrentConditionActive = s.overcurrentConditionActive
    ∧ (evalDryRun s now).1.overcurrentStartTime = s.overcurrentStartTime
    ∧ (evalDryRun s now).1.Ia = s.Ia
    ∧ (evalDryRun s now).1.Ib = s.Ib
    ∧ (evalDryRun s now).1.Ic = s.Ic
    ∧ (evalDryRun s now).1.contactorDO = s.contactorDO
    ∧ (evalDryRun s now).1.faultDO = s.faultDO := by
  simp only [evalDryRun, evalStartTimeout]
  split_ifs <;> simp

/-- Lemma: `evaluateState` only updates the overcurrent/dry-run condition timer
fields of the state it returns. -/
theorem evaluateState_fst (s : PumpSt) (now : Nat) :
    (evaluateState s now).1.state = s.state
    ∧ (evaluateState s now).1.pendingState = s.pendingState
    ∧ (evaluateState s now).1.stateDebounceCounter = s.stateDebounceCounter
    ∧ (evaluateState s now).1.faultType = s.faultType
    ∧ (evaluateState s now).1.maxCurrentThreshold = s.maxCurrentThreshold
    ∧ (evaluateState s now).1.overcurrentProtectionEnabled = s.overcurrentProtectionEnabled
    ∧ (evaluateState s now).1.overcurrentDelayS = s.overcurrentDelayS
    ∧ (evaluateState s now).1.Ia = s.Ia
    ∧ (evaluateState s now).1.Ib = s.Ib
    ∧ (evaluateState s now).1.Ic = s.Ic
    ∧ (evaluateState s now).1.contactorDO = s.contactorDO
    ∧ (evaluateState s now).1.faultDO = s.faultDO := by
  simp only [evaluateState]
  split_ifs <;> simp [evalDryRun_fst]

@[simp] theorem setSensors_state (s : PumpSt) (i : TickIn) :
    (setSensors s i).state = s.state := rfl

@[simp] theorem setSensors_pendingState (s : PumpSt) (i : TickIn) :
    (setSensors s i).pendingState = s.pendingState := rfl

@[simp] theorem setSensors_stateDebounceCounter (s : PumpSt) (i : TickIn) :
    (setSensors s i).stateDebounceCounter = s.stateDebounceCounter := rfl

@[simp] theorem setSensors_faultType (s : PumpSt) (i : TickIn) :
    (setSensors s i).faultType = s.faultType := rfl

@[simp] theorem setSensors_maxCurrentThreshold (s : PumpSt) (i : TickIn) :
    (setSensors s i).maxCurrentThreshold = s.maxCurrentThreshold := rfl

@[simp] theorem setSensors_overcurrentProtectionEnabled (s : PumpSt) (i : TickIn) :
    (setSensors s i).overcurrentProtectionEnabled = s.overcurrentProtectionEnabled := rfl

@[simp] theorem setSensors_overcurrentDelayS (s : PumpSt) (i : TickIn) :
    (setSensors s i).overcurrentDelayS = s.overcurrentDelayS := rfl

@[simp] theorem setSensors_overcurrentConditionActive (s : PumpSt) (i : TickIn) :
    (setSensors s i).overcurrentConditionActive = s.overcurrentConditionActive := rfl

@[simp] theorem setSensors_overcurrentStartTime (s : PumpSt) (i : TickIn) :
    (setSensors s i).overcurrentStartTime = s.overcurrentStartTime := rfl

@[simp] theorem setSensors_Ia (s : PumpSt) (i : TickIn) : (setSensors s i).Ia = i.Ia := rfl

@[simp] theorem setSensors_Ib (s : PumpSt) (i : TickIn) : (setSensors s i).Ib = i.Ib := rfl

@[simp] theorem setSensors_Ic (s : PumpSt) (i : TickIn) : (setSensors s i).Ic = i.Ic := rfl

@[simp] theorem setSensors_sensorOnline (s : PumpSt) (i : TickIn) :
    (setSensors s i).sensorOnline = i.sensorOnline := rfl

@[simp] theorem setSensors_modbusFailCount (s : PumpSt) (i : TickIn) :
    (setSensors s i).modbusFailCount = i.modbusFailCount := rfl

@[simp] theorem setSensors_contactorDO (s : PumpSt) (i : TickIn) :
    (setSensors s i).contactorDO = s.contactorDO := rfl

@[simp] theorem setSensors_faultDO (s : PumpSt) (i : TickIn) :
    (setSensors s i).faultDO = s.faultDO := rfl

theorem getMaxCurrent_congr {s t : PumpSt}
    (ha : s.Ia = t.Ia) (hb : s.Ib = t.Ib) (hc : s.Ic = t.Ic) :
    getMaxCurrent s = getMaxCurrent t := by
  simp [getMaxCurrent, ha, hb, hc]

theorem triggerFault_state {s : PumpSt} (t : FaultType) (now : Nat)
    (h : s.state ≠ FAULT) : (triggerFault s t now).state = FAULT := by
  simp [triggerFault, h]

theorem triggerFault_faultType {s : PumpSt} (t : FaultType) (now : Nat)
    (h : s.state ≠ FAULT) : (triggerFault s t now).faultType = t := by
  simp [triggerFault, h]

theorem triggerFault_contactorDO {s : PumpSt} (t : FaultType) (now : Nat)
    (h : s.state ≠ FAULT) : (triggerFault s t now).contactorDO = false := by
  simp [triggerFault, h]

theorem triggerFault_preserves (s : PumpSt) (t : FaultType) (now : Nat) :
    (triggerFault s t now).maxCurrentThreshold = s.maxCurrentThreshold
    ∧ (triggerFault s t now).overcurrentProtectionEnabled = s.overcurrentProtectionEnabled
    ∧ (triggerFault s t now).overcurrentDelayS = s.overcurrentDelayS := by
  simp only [triggerFault]
  split_ifs <;> simp

/-- With `FAULT_AUTO_RESET_MS = 0`, a tick in Fault changes nothing. -/
theorem updateState_of_fault (u : PumpSt) (now : Nat) (h : u.state = FAULT) :
    updateState u now = u := by
  simp only [updateState]
  rw [if_pos h, if_neg (by simp [FAULT_AUTO_RESET_MS])]

/-- With the overcurrent condition already active, `evaluateState` reduces to
the delay test followed by the rest of the evaluation. -/
theorem evaluateState_oc_active_eq (s : PumpSt) (now : Nat)
    (he : s.overcurrentProtectionEnabled = true)
    (hover : s.Ia > s.maxCurrentThreshold ∨ s.Ib > s.maxCurrentThreshold
             ∨ s.Ic > s.maxCurrentThreshold)
    (hact : s.overcurrentConditionActive = true) :
    evaluateState s now =
      (if s.overcurrentDelayS = 0
          ∨ now - s.overcurrentStartTime ≥ s.overcurrentDelayS * 1000 then
        (s, FAULT)
       else evalDryRun s now) := by
  simp only [evaluateState]
  rw [if_pos ⟨he, hover⟩,
      if_neg (show ¬(s.overcurrentConditionActive = false) by simp [hact])]

/-- On its first violating tick, the overcurrent check behaves like a tick in
which the condition timer was already running from `now`. -/
theorem evaluateState_oc_activate (s : PumpSt) (now : Nat)
    (he : s.overcurrentProtectionEnabled = true)
    (hover : s.Ia > s.maxCurrentThreshold ∨ s.Ib > s.maxCurrentThreshold
             ∨ s.Ic > s.maxCurrentThreshold)
    (hact : s.overcurrentConditionActive = false) :
    evaluateState s now
      = evaluateState
          { s with overcurrentConditionActive := true, overcurrentStartTime := now } now := by
  have h2 := evaluateState_oc_active_eq
      { s with overcurrentConditionActive := true, overcurrentStartTime := now } now
      he hover rfl
  rw [h2]
  simp only [evaluateState]
  rw [if_pos ⟨he, hover⟩, if_pos (show s.overcurrentConditionActive = false from hact)]

/-- A live tick whose evaluation yields Fault while some phase is above the
threshold latches `OVERCURRENT`. -/
theorem updateState_to_overcurrent (u : PumpSt) (now : Nat)
    (hstate : u.state ≠ FAULT)
    (hsen : ¬(u.sensorOnline = false ∧ u.modbusFailCount ≥ FL_MAX_MODBUS_FAILURES))
    (hfault : (evaluateState u now).2 = FAULT)
    (hover : u.Ia > u.maxCurrentThreshold ∨ u.Ib > u.maxCurrentThreshold
             ∨ u.Ic > u.maxCurrentThreshold) :
    updateState u now = triggerFault (evaluateState u now).1 OVERCURRENT now := by
  obtain ⟨-, -, -, -, e5, -, -, ea, eb, ec, -, -⟩ := evaluateState_fst u now
  have hmc : getMaxCurrent (evaluateState u now).1
      > (evaluateState u now).1.maxCurrentThreshold := by
    rw [getMaxCurrent_congr ea eb ec, e5]
    exact getMaxCurrent_gt hover
  simp only [updateState]
  rw [if_neg hstate, if_neg hsen, if_pos hfault, if_pos hmc]

/-- A live tick whose evaluation does not yield Fault only performs debounce
bookkeeping: the state stays non-Fault and the condition-timer and
protection-configuration fields pass through from the evaluation result. -/
theorem updateState_no_fault_fields (u : PumpSt) (now : Nat)
    (hstate : u.state ≠ FAULT)
    (hsen : ¬(u.sensorOnline = false ∧ u.modbusFailCount ≥ FL_MAX_MODBUS_FAILURES))
    (hnf : (evaluateState u now).2 ≠ FAULT) :
    (updateState u now).state ≠ FAULT
    ∧ (updateState u now).overcurrentConditionActive
        = (evaluateState u now).1.overcurrentConditionActive
    ∧ (updateState u now).overcurrentStartTime
        = (evaluateState u now).1.overcurrentStartTime
    ∧ (updateState u now).overcurrentProtectionEnabled = u.overcurrentProtectionEnabled
    ∧ (updateState u now).maxCurrentThreshold = u.maxCurrentThreshold
    ∧ (updateState u now).overcurrentDelayS = u.overcurrentDelayS := by
  obtain ⟨e1, e2, e3, -, e5, e6, e7, -, -, -, -, -⟩ := evaluateState_fst u now
  simp only [updateState]
  rw [if_neg hstate, if_neg hsen, if_neg hnf]
  split_ifs <;> simp_all

/-- One tick inside an overcurrent window preserves the window invariant, and
latches the overcurrent fault as soon as the configured delay has elapsed
since the window opened. -/
theorem tick_oc (th : Rat) (d t0 : Nat) (s : PumpSt) (i : TickIn)
    (he : s.overcurrentProtectionEnabled = true)
    (hth : s.maxCurrentThreshold = th)
    (hd : s.overcurrentDelayS = d)
    (hcase : (s.state ≠ FAULT
              ∧ ((s.overcurrentConditionActive = true ∧ s.overcurrentStartTime = t0)
                 ∨ (s.overcurrentConditionActive = false ∧ t0 = i.now)))
             ∨ ocFaulted s)
    (hg : goodIn th t0 i) :
    ocInv th d t0 (tick s i) ∧ (d * 1000 ≤ i.now - t0 → ocFaulted (tick s i)) := by
  obtain ⟨hover, hsen, ht0⟩ := hg
  have htick : tick s i = updateState (setSensors s i) i.now := rfl
  set u := setSensors s i with hu
  have hue : u.overcurrentProtectionEnabled = true := he
  have huth : u.maxCurrentThreshold = th := hth
  have hud : u.overcurrentDelayS = d := hd
  have huover : u.Ia > u.maxCurrentThreshold ∨ u.Ib > u.maxCurrentThreshold
      ∨ u.Ic > u.maxCurrentThreshold := by
    rw [show u.maxCurrentThreshold = th from hth]
    exact hover
  rcases hcase with ⟨hnf, hsub⟩ | hflt
  · -- live at the start of the tick
    have hust : u.state ≠ FAULT := hnf
    have husen : ¬(u.sensorOnline = false ∧ u.modbusFailCount ≥ FL_MAX_MODBUS_FAILURES) := by
      rw [show u.sensorOnline = i.sensorOnline from rfl, hsen]
      simp
    by_cases htf : (evaluateState u i.now).2 = FAULT
    · -- the evaluation faults this tick: kind is OVERCURRENT (phase above threshold)
      have hupd := updateState_to_overcurrent u i.now hust husen htf huover
      obtain ⟨f1, -, -, -, f5, f6, f7, -, -, -, -, -⟩ := evaluateState_fst u i.now
      have hes1 : (evaluateState u i.now).1.state ≠ FAULT := by
        rw [f1]; exact hust
      have hfu : ocFaulted (triggerFault (evaluateState u i.now).1 OVERCURRENT i.now) :=
        ⟨triggerFault_state _ _ hes1, triggerFault_faultType _ _ hes1,
         triggerFault_contactorDO _ _ hes1⟩
      obtain ⟨p1, p2, p3⟩ := triggerFault_preserves (evaluateState u i.now).1 OVERCURRENT i.now
      rw [htick, hupd]
      exact ⟨⟨p2.trans (f6.trans hue), p1.trans (f5.trans huth), p3.trans (f7.trans hud),
              Or.inr hfu⟩, fun _ => hfu⟩
    · -- no fault this tick: debounce only; condition timer keeps running
      obtain ⟨g1, g2, g3, g4, g5, g6⟩ := updateState_no_fault_fields u i.now hust husen htf
      rw [htick]
      rcases hsub with ⟨hact, hstart⟩ | ⟨hact, ht0i⟩
      · -- condition already active since t0
        have huact : u.overcurrentConditionActive = true := hact
        have hustart : u.overcurrentStartTime = t0 := hstart
        have hev := evaluateState_oc_active_eq u i.now hue huover huact
        by_cases hel : u.overcurrentDelayS = 0
            ∨ i.now - u.overcurrentStartTime ≥ u.overcurrentDelayS * 1000
        · rw [if_pos hel] at hev
          rw [hev] at htf
          exact absurd rfl htf
        · rw [if_neg hel] at hev
          obtain ⟨-, -, -, -, -, -, -, d8, d9, -, -, -, -, -⟩ := evalDryRun_fst u i.now
          refine ⟨⟨g4.trans hue, g5.trans huth, g6.trans hud, Or.inl ⟨g1, ?_, ?_⟩⟩, ?_⟩
          · rw [g2, hev]
            exact d8.trans huact
          · rw [g3, hev]
            exact d9.trans hustart
          · intro helap
            exfalso
            apply hel
            right
            rw [hustart, hud]
            exact helap
      · -- condition activates this tick (t0 = i.now)
        have huact : u.overcurrentConditionActive = false := hact
        have hevA := evaluateState_oc_activate u i.now hue huover huact
        set uA : PumpSt :=
          { u with overcurrentConditionActive := true, overcurrentStartTime := i.now }
          with huA
        have h1e : uA.overcurrentProtectionEnabled = true := hue
        have h1over : uA.Ia > uA.maxCurrentThreshold ∨ uA.Ib > uA.maxCurrentThreshold
            ∨ uA.Ic > uA.maxCurrentThreshold := huover
        have h1act : uA.overcurrentConditionActive = true := by rw [huA]
        have hcomb := hevA.trans (evaluateState_oc_active_eq uA i.now h1e h1over h1act)
        by_cases hel : uA.overcurrentDelayS = 0
            ∨ i.now - uA.overcurrentStartTime ≥ uA.overcurrentDelayS * 1000
        · rw [if_pos hel] at hcomb
          rw [hcomb] at htf
          exact absurd rfl htf
        · rw [if_neg hel] at hcomb
          obtain ⟨-, -, -, -, -, -, -, d8, d9, -, -, -, -, -⟩ := evalDryRun_fst uA i.now
          refine ⟨⟨g4.trans hue, g5.trans huth, g6.trans hud, Or.inl ⟨g1, ?_, ?_⟩⟩, ?_⟩
          · rw [g2, hcomb, d8, huA]
          · rw [g3, hcomb, d9, huA, ht0i]
          · intro helap
            exfalso
            apply hel
            left
            have hd0 : d = 0 := by
              rw [ht0i, Nat.sub_self] at helap
              omega
            rw [huA]
            exact hud.trans hd0
  · -- already faulted before the tick: everything is latched
    have hust : u.state = FAULT := hflt.1
    have hfu : ocFaulted u := ⟨hflt.1, hflt.2.1, hflt.2.2⟩
    rw [htick, updateState_of_fault u i.now hust]
    exact ⟨⟨hue, huth, hud, Or.inr hfu⟩, fun _ => hfu⟩

/-- Folding ticks through an overcurrent window preserves the invariant. -/
theorem runTicks_ocInv (th : Rat) (d t0 : Nat) (M : List TickIn) :
    ∀ s : PumpSt, ocInv th d t0 s → (∀ i ∈ M, goodIn th t0 i) →
      ocInv th d t0 (runTicks s M) := by
  induction M with
  | nil =>
    intro s h _
    simpa [runTicks] using h
  | cons j M ih =>
    intro s h hgood
    have hcase : (s.state ≠ FAULT
        ∧ ((s.overcurrentConditionActive = true ∧ s.overcurrentStartTime = t0)
           ∨ (s.overcurrentConditionActive = false ∧ t0 = j.now)))
        ∨ ocFaulted s :=
      h.2.2.2.elim (fun hl => Or.inl ⟨hl.1, Or.inl ⟨hl.2.1, hl.2.2⟩⟩) Or.inr
    have hstep := tick_oc th d t0 s j h.1 h.2.1 h.2.2.1 hcase (hgood j (by simp))
    exact ih (tick s j) hstep.1 (fun i hi => hgood i (by simp [hi]))

theorem fl_readSensors_busOk (s : SensorSt) (r : ReadIn) (h : r.busOk = true) :
    (fl_readSensors s r).1.modbusFailCount = 0
    ∧ (fl_readSensors s r).1.sensorOnline = true := by
  simp only [fl_readSensors, h]
  split_ifs <;> simp_all

theorem fl_readSensors_busFail (s : SensorSt) (r : ReadIn) (h : r.busOk = false) :
    (fl_readSensors s r).1.modbusFailCount = s.modbusFailCount + 1 := by
  simp [fl_readSensors, h]

theorem runReads_failCount_le (L : List ReadIn) :
    ∀ s : SensorSt, (runReads s L).modbusFailCount ≤ s.modbusFailCount + L.length := by
  induction L with
  | nil => intro s; simp [runReads]
  | cons r M ih =>
    intro s
    have hstep : (fl_readSensors s r).1.modbusFailCount ≤ s.modbusFailCount + 1 := by
      simp only [fl_readSensors]
      split_ifs <;> simp
    have := ih (fl_readSensors s r).1
    simp only [runReads, List.foldl_cons] at this ⊢
    simp only [List.length_cons]
    omega

/-- If the accumulated consecutive-failure count reaches `k` after a sequence
of reads, the last `k` reads were failed bus transactions. -/
theorem runReads_fail_suffix (L : List ReadIn) :
    ∀ (k : Nat) (s : SensorSt), k ≤ L.length → k ≤ (runReads s L).modbusFailCount →
      ∃ L1 L2, L = L1 ++ L2 ∧ L2.length = k ∧ ∀ x ∈ L2, x.busOk = false := by
  induction L using List.reverseRecOn with
  | nil =>
    intro k s hk _
    have hk0 : k = 0 := by simpa using hk
    subst hk0
    exact ⟨[], [], by simp, rfl, by simp⟩
  | append_singleton M r ih =>
    intro k s hk hcnt
    have hstep : runReads s (M ++ [r]) = (fl_readSensors (runReads s M) r).1 := by
      simp [runReads, List.foldl_append]
    rcases Nat.eq_zero_or_pos k with hk0 | hkpos
    · subst hk0
      exact ⟨M ++ [r], [], by simp, rfl, by simp⟩
    · have hr : r.busOk = false := by
        cases hb : r.busOk
        · rfl
        · exfalso
          have h0 := (fl_readSensors_busOk (runReads s M) r hb).1
          rw [hstep, h0] at hcnt
          omega
      have hcnt' : (runReads s M).modbusFailCount + 1 = (runReads s (M ++ [r])).modbusFailCount := by
        rw [hstep, fl_readSensors_busFail (runReads s M) r hr]
      obtain ⟨L1, L2, hML, hlen, hall⟩ := ih (k - 1) s (by simp at hk; omega) (by omega)
      refine ⟨L1, L2 ++ [r], by rw [hML, List.append_assoc], by simp [hlen]; omega, ?_⟩
      intro x hx
      rcases List.mem_append.mp hx with hx | hx
      · exact hall x hx
      · rw [List.mem_singleton.mp hx]
        exact hr

theorem fl_readSensors_invalid (s : SensorSt) (r : ReadIn)
    (hb : r.busOk = true)
    (hinv : isValidCurrent r.rIa = false ∨ isValidCurrent r.rIb = false
            ∨ isValidCurrent r.rIc = false) :
    (fl_readSensors s r).1.Ia = s.Ia ∧ (fl_readSensors s r).1.Ib = s.Ib
    ∧ (fl_readSensors s r).1.Ic = s.Ic ∧ (fl_readSensors s r).2 = false := by
  have hc : (!(isValidCurrent r.rIa) || !(isValidCurrent r.rIb)
      || !(isValidCurrent r.rIc)) = true := by
    rcases hinv with h | h | h <;> simp [h]
  simp only [fl_readSensors, hb]
  split_ifs <;> simp_all

/-! ## Claim theorems -/

/-- C6: for any weekday (Monday..Friday, `tm_wday` 1..5) in the high-demand
season (months June..August), the calendar-tariff evaluator classifies
minute-of-day 479 as Peak and minute-of-day 480 as Standard, and operation is
not permitted at either minute: the peak/standard boundary falls exactly
between minutes 479 and 480. -/
theorem C6_ruraflex_peak_standard_boundary (m d : Nat)
    (hm1 : 6 ≤ m) (hm2 : m ≤ 8) (hd1 : 1 ≤ d) (hd2 : d ≤ 5) :
    ruraflexIsPeak ⟨m, d, 479⟩ = true
    ∧ ruraflexIsStandard ⟨m, d, 479⟩ = false
    ∧ ruraflexIsPeak ⟨m, d, 480⟩ = false
    ∧ ruraflexIsStandard ⟨m, d, 480⟩ = true
    ∧ isWithinRuraflex true (some ⟨m, d, 479⟩) = false
    ∧ isWithinRuraflex true (some ⟨m, d, 480⟩) = false := by
  have hw : isWeekday d = true := by simp [isWeekday, hd1, hd2]
  have hs : isHighDemandSeason m = true := by simp [isHighDemandSeason, hm1, hm2]
  simp [ruraflexIsPeak, ruraflexIsStandard, isWithinRuraflex, hw, hs]

theorem C6_ruraflex_peak_standard_boundary_witness :
    ruraflexIsPeak ⟨6, 1, 479⟩ = true
    ∧ ruraflexIsStandard ⟨6, 1, 479⟩ = false
    ∧ ruraflexIsPeak ⟨6, 1, 480⟩ = false
    ∧ ruraflexIsStandard ⟨6, 1, 480⟩ = true
    ∧ isWithinRuraflex true (some ⟨6, 1, 479⟩) = false
    ∧ isWithinRuraflex true (some ⟨6, 1, 480⟩) = false :=
  C6_ruraflex_peak_standard_boundary 6 1 (by decide) (by decide) (by decide) (by decide)

/-- C2: once a pump is in Fault, only the RESET command changes its PumpState
(back to Stopped with the fault-alarm output cleared and debounce/pending
state cleared); any command other than RESET leaves PumpState = Fault, and a
sensing tick also leaves PumpState = Fault (auto-reset is disabled). -/
theorem C2_fault_sticky_until_reset (s : PumpSt) (rm : Bool) (now : Nat) (c : Cmd)
    (h : s.state = FAULT) :
    (c ≠ Cmd.RESET → (pumpMqttCallback s rm now c).state = FAULT)
    ∧ (pumpMqttCallback s rm now Cmd.RESET).state = STOPPED
    ∧ (pumpMqttCallback s rm now Cmd.RESET).faultType = NO_FAULT
    ∧ (pumpMqttCallback s rm now Cmd.RESET).faultDO = false
    ∧ (pumpMqttCallback s rm now Cmd.RESET).pendingState = STOPPED
    ∧ (pumpMqttCallback s rm now Cmd.RESET).stateDebounceCounter = 0
    ∧ (pumpMqttCallback s rm now Cmd.RESET).startCommand = false
    ∧ (updateState s now).state = FAULT := by
  refine ⟨?_, ?_⟩
  · intro hc
    cases c <;> simp only [pumpMqttCallback] <;> (repeat' split) <;>
      simp_all [resetFault]
  · constructor
    · simp [pumpMqttCallback, resetFault, h]
    refine ⟨?_, ?_, ?_, ?_, ?_, ?_⟩ <;>
      simp [pumpMqttCallback, resetFault, updateState, h, FAULT_AUTO_RESET_MS]

theorem C2_fault_sticky_until_reset_witness :
    let s := { initialPumpState with state := FAULT, faultType := OVERCURRENT }
    (Cmd.START ≠ Cmd.RESET → (pumpMqttCallback s true 0 Cmd.START).state = FAULT)
    ∧ (pumpMqttCallback s true 0 Cmd.RESET).state = STOPPED
    ∧ (pumpMqttCallback s true 0 Cmd.RESET).faultType = NO_FAULT
    ∧ (pumpMqttCallback s true 0 Cmd.RESET).faultDO = false
    ∧ (pumpMqttCallback s true 0 Cmd.RESET).pendingState = STOPPED
    ∧ (pumpMqttCallback s true 0 Cmd.RESET).stateDebounceCounter = 0
    ∧ (pumpMqttCallback s true 0 Cmd.RESET).startCommand = false
    ∧ (updateState s 0).state = FAULT :=
  C2_fault_sticky_until_reset
    { initialPumpState with state := FAULT, faultType := OVERCURRENT } true 0 Cmd.START rfl

/-- C3 counterexample: with the wireless transport active
(`fl_useEthernet = false`) and the consecutive connect-failure counter at 2, a
further failed connect attempt brings the counter to the threshold
`FL_MAX_MQTT_CONNECT_FAILURES = 3`, yet the wired transport is NOT made
active: `fl_useEthernet` stays `false`.  The threshold fallback in
`fl_reconnectMQTT` only fires while Ethernet is the active transport. -/
theorem C3_counterexample :
    (fl_reconnectAttempt ⟨false, false, true, false, 2⟩ false false).mqttConnectFailCount
        = FL_MAX_MQTT_CONNECT_FAILURES
    ∧ (fl_reconnectAttempt ⟨false, false, true, false, 2⟩ false false).useEthernet = false := by
  decide

/-- C3 (amended): whenever the WIRED (Ethernet) transport is active and its
consecutive broker connect-failure counter reaches the threshold (3), the
manager forces a fallback to the WIRELESS (WiFi) transport — clearing the
counter and deactivating Ethernet — to regain secure-channel (TLS)
capability. -/
theorem C3_wired_fallback_to_wireless (s : CommsSt) (wifiJoinOk : Bool)
    (heth : s.useEthernet = true)
    (hcnt : s.mqttConnectFailCount + 1 ≥ FL_MAX_MQTT_CONNECT_FAILURES) :
    (fl_reconnectAttempt s false wifiJoinOk).useEthernet = false
    ∧ (fl_reconnectAttempt s false wifiJoinOk).mqttConnectFailCount = 0
    ∧ (fl_reconnectAttempt s false wifiJoinOk).ethernetConnected = false := by
  simp only [fl_reconnectAttempt]
  split_ifs <;> simp_all

theorem C3_wired_fallback_to_wireless_witness :
    (fl_reconnectAttempt ⟨true, true, false, false, 2⟩ false false).useEthernet = false
    ∧ (fl_reconnectAttempt ⟨true, true, false, false, 2⟩ false false).mqttConnectFailCount = 0
    ∧ (fl_reconnectAttempt ⟨true, true, false, false, 2⟩ false false).ethernetConnected = false :=
  C3_wired_fallback_to_wireless ⟨true, true, false, false, 2⟩ false rfl (by decide)

/-- C5 counterexample: with Ruraflex enabled, a `SET_SCHEDULE` command with
`enabled: true` leaves BOTH `scheduleEnabled` and `ruraflexEnabled` true — the
`SET_SCHEDULE` handler never clears `ruraflexEnabled`, so the claimed mutual
exclusion fails after this configuration command. -/
theorem C5_counterexample :
    (pumpMqttCallback { initialPumpState with ruraflexEnabled := true } true 0
        (Cmd.SET_SCHEDULE ⟨some true, none, none, none, none, none⟩)).scheduleEnabled = true
    ∧ (pumpMqttCallback { initialPumpState with ruraflexEnabled := true } true 0
        (Cmd.SET_SCHEDULE ⟨some true, none, none, none, none, none⟩)).ruraflexEnabled = true :=
  ⟨rfl, rfl⟩

/-- C5 (amended): the exclusivity is enforced in one direction only: after any
`SET_RURAFLEX` command, `scheduleEnabled` and `ruraflexEnabled` are never both
true (enabling Ruraflex disables the custom schedule), but `SET_SCHEDULE` does
not disable Ruraflex. -/
theorem C5_ruraflex_cmd_exclusive (s : PumpSt) (rm : Bool) (now : Nat) (e : Option Bool) :
    ((pumpMqttCallback s rm now (Cmd.SET_RURAFLEX e)).ruraflexEnabled
      && (pumpMqttCallback s rm now (Cmd.SET_RURAFLEX e)).scheduleEnabled) = false := by
  cases e <;> simp only [pumpMqttCallback] <;> split_ifs <;> simp_all

/-- C7: out-of-range `SET_THRESHOLDS` values (`max_current` outside
`[1, 500]`, `dry_current` outside `[0, 50]`) and out-of-range `SET_DELAYS`
values (delay > 30 s) are silently rejected, the stored parameter keeping its
prior value, while in-range values in the same command are applied. -/
theorem C7_config_range_validation (s : PumpSt) (rm : Bool) (now : Nat)
    (mc dc : Option Rat) (od dr : Option Nat) :
    (∀ v, mc = some v → ¬(v ≥ 1 ∧ v ≤ 500) →
        (pumpMqttCallback s rm now (Cmd.SET_THRESHOLDS ⟨mc, dc⟩)).maxCurrentThreshold
          = s.maxCurrentThreshold)
    ∧ (∀ v, mc = some v → v ≥ 1 → v ≤ 500 →
        (pumpMqttCallback s rm now (Cmd.SET_THRESHOLDS ⟨mc, dc⟩)).maxCurrentThreshold = v)
    ∧ (∀ v, dc = some v → ¬(v ≥ 0 ∧ v ≤ 50) →
        (pumpMqttCallback s rm now (Cmd.SET_THRESHOLDS ⟨mc, dc⟩)).dryCurrentThreshold
          = s.dryCurrentThreshold)
    ∧ (∀ v, dc = some v → v ≥ 0 → v ≤ 50 →
        (pumpMqttCallback s rm now (Cmd.SET_THRESHOLDS ⟨mc, dc⟩)).dryCurrentThreshold = v)
    ∧ (∀ v, od = some v → 30 < v →
        (pumpMqttCallback s rm now (Cmd.SET_DELAYS ⟨od, dr⟩)).overcurrentDelayS
          = s.overcurrentDelayS)
    ∧ (∀ v, od = some v → v ≤ 30 →
        (pumpMqttCallback s rm now (Cmd.SET_DELAYS ⟨od, dr⟩)).overcurrentDelayS = v)
    ∧ (∀ v, dr = some v → 30 < v →
        (pumpMqttCallback s rm now (Cmd.SET_DELAYS ⟨od, dr⟩)).dryrunDelayS = s.dryrunDelayS)
    ∧ (∀ v, dr = some v → v ≤ 30 →
        (pumpMqttCallback s rm now (Cmd.SET_DELAYS ⟨od, dr⟩)).dryrunDelayS = v) := by
  refine ⟨?_, ?_, ?_, ?_, ?_, ?_, ?_, ?_⟩ <;>
    (intro v hv
     subst hv) <;>
    intros <;>
    (try cases mc) <;> (try cases dc) <;> (try cases od) <;> (try cases dr) <;>
    simp only [pumpMqttCallback] <;> split_ifs <;>
    first
      | omega
      | simp_all

theorem C7_config_range_validation_witness :
    (pumpMqttCallback initialPumpState true 0
        (Cmd.SET_THRESHOLDS ⟨some 1000, some 2⟩)).maxCurrentThreshold = 120
    ∧ (pumpMqttCallback initialPumpState true 0
        (Cmd.SET_THRESHOLDS ⟨some 1000, some 2⟩)).dryCurrentThreshold = 2
    ∧ (pumpMqttCallback initialPumpState true 0
        (Cmd.SET_DELAYS ⟨some 31, some 5⟩)).overcurrentDelayS = 0
    ∧ (pumpMqttCallback initialPumpState true 0
        (Cmd.SET_DELAYS ⟨some 31, some 5⟩)).dryrunDelayS = 5 := by
  obtain ⟨h1, h2, h3, h4, h5, h6, h7, h8⟩ :=
    C7_config_range_validation initialPumpState true 0 (some 1000) (some 2) (some 31) (some 5)
  exact ⟨(h1 1000 rfl (by norm_num)).trans rfl,
         h4 2 rfl (by norm_num) (by norm_num),
         (h5 31 rfl (by norm_num)).trans rfl,
         h8 5 rfl (by norm_num)⟩

/-- C4 counterexample: a tick in which the evaluated target (Running) differs
from the pending target (Stopped) sets the debounce counter to 1, not to 0:
the code counts the current tick as the first agreeing tick of the new
pending target. -/
theorem C4_counterexample :
    evalTarget { initialPumpState with dryRunProtectionEnabled := false }
        ⟨1000, 10, 0, 0, true, 0⟩
      ≠ { initialPumpState with dryRunProtectionEnabled := false }.pendingState
    ∧ (tick { initialPumpState with dryRunProtectionEnabled := false }
        ⟨1000, 10, 0, 0, true, 0⟩).stateDebounceCounter = 1 := by
  decide

/-- C4 (amended): in a tick where the pump is not in Fault, no sensor-fault
escalation fires and the evaluated target is not Fault, if the target differs
from the pending target the debounce counter restarts: it becomes 0 when the
target equals the current state, and 1 (counting the current tick) when the
target differs from the current state.  Fault paths bypass this bookkeeping
entirely. -/
theorem C4_debounce_restart (s : PumpSt) (i : TickIn)
    (h1 : s.state ≠ FAULT)
    (h2 : ¬(i.sensorOnline = false ∧ i.modbusFailCount ≥ FL_MAX_MODBUS_FAILURES))
    (h3 : evalTarget s i ≠ FAULT)
    (h4 : evalTarget s i ≠ s.pendingState) :
    (tick s i).stateDebounceCounter = if evalTarget s i = s.state then 0 else 1 := by
  obtain ⟨e1, e2, e3, -⟩ := evaluateState_fst (setSensors s i) i.now
  simp only [evalTarget] at h3 h4 ⊢
  simp only [tick, updateState]
  rw [if_neg (by simpa using h1), if_neg (by simpa using h2)]
  split_ifs <;> simp_all

theorem C4_debounce_restart_witness :
    (tick { initialPumpState with dryRunProtectionEnabled := false }
        ⟨1000, 10, 0, 0, true, 0⟩).stateDebounceCounter
      = if evalTarget { initialPumpState with dryRunProtectionEnabled := false }
            ⟨1000, 10, 0, 0, true, 0⟩
          = { initialPumpState with dryRunProtectionEnabled := false }.state
        then 0 else 1 :=
  C4_debounce_restart { initialPumpState with dryRunProtectionEnabled := false }
    ⟨1000, 10, 0, 0, true, 0⟩ (by decide) (by decide) (by decide) (by decide)

/-- C8: transitions into Fault bypass the 3-tick debounce.  If the per-tick
evaluation yields target Fault, the pump state is Fault in that same tick,
regardless of the debounce counter and pending target; and when the target is
not Fault, the state changes in a tick exactly when the target differs from
the current state, equals the pending target, and the incremented debounce
counter reaches `STATE_DEBOUNCE_COUNT` (3) — i.e. the commit rule governs
only Stopped/Running transitions. -/
theorem C8_fault_bypasses_debounce (s : PumpSt) (i : TickIn)
    (h1 : s.state ≠ FAULT) :
    (evalTarget s i = FAULT → (tick s i).state = FAULT)
    ∧ (¬(i.sensorOnline = false ∧ i.modbusFailCount ≥ FL_MAX_MODBUS_FAILURES) →
        evalTarget s i ≠ FAULT →
        ((tick s i).state ≠ s.state ↔
          (evalTarget s i ≠ s.state ∧ evalTarget s i = s.pendingState
            ∧ s.stateDebounceCounter + 1 ≥ STATE_DEBOUNCE_COUNT))) := by
  obtain ⟨e1, e2, e3, -⟩ := evaluateState_fst (setSensors s i) i.now
  constructor
  · intro h3
    simp only [evalTarget] at h3
    simp only [tick, updateState]
    rw [if_neg (by simpa using h1)]
    by_cases hs : (setSensors s i).sensorOnline = false
        ∧ (setSensors s i).modbusFailCount ≥ FL_MAX_MODBUS_FAILURES
    · rw [if_pos hs]
      exact triggerFault_state _ _ (by simpa using h1)
    · rw [if_neg hs]
      rw [if_pos h3]
      split_ifs <;> exact triggerFault_state _ _ (by simp [e1, h1])
  · intro h2 h3
    simp only [evalTarget] at h3 ⊢
    simp only [tick, updateState]
    rw [if_neg (by simpa using h1), if_neg (by simpa using h2), if_neg h3]
    split_ifs <;> simp_all

theorem C8_fault_bypasses_debounce_witness :
    let s := { initialPumpState with stateDebounceCounter := 1, pendingState := RUNNING }
    let i : TickIn := ⟨20000, 500, 0, 0, true, 0⟩
    (evalTarget s i = FAULT → (tick s i).state = FAULT)
    ∧ (¬(i.sensorOnline = false ∧ i.modbusFailCount ≥ FL_MAX_MODBUS_FAILURES) →
        evalTarget s i ≠ FAULT →
        ((tick s i).state ≠ s.state ↔
          (evalTarget s i ≠ s.state ∧ evalTarget s i = s.pendingState
            ∧ s.stateDebounceCounter + 1 ≥ STATE_DEBOUNCE_COUNT))) :=
  C8_fault_bypasses_debounce
    { initialPumpState with stateDebounceCounter := 1, pendingState := RUNNING }
    ⟨20000, 500, 0, 0, true, 0⟩ (by decide)

/-- C9: a start-timeout fault has no dedicated fault kind.  In any tick whose
evaluation yields Fault while the maximum phase current does not exceed
`maxCurrentThreshold` (the start-timeout case in particular), the fault is
latched with `FaultType = DRY_RUN`. -/
theorem C9_start_timeout_reports_dry_run (s : PumpSt) (i : TickIn)
    (h1 : s.state ≠ FAULT)
    (h2 : ¬(i.sensorOnline = false ∧ i.modbusFailCount ≥ FL_MAX_MODBUS_FAILURES))
    (h3 : evalTarget s i = FAULT)
    (h4 : ¬(getMaxCurrent (setSensors s i) > s.maxCurrentThreshold)) :
    (tick s i).state = FAULT ∧ (tick s i).faultType = DRY_RUN := by
  obtain ⟨e1, -, -, -, e5, -, -, ea, eb, ec, -⟩ := evaluateState_fst (setSensors s i) i.now
  have hmc : getMaxCurrent (evaluateState (setSensors s i) i.now).1
      = getMaxCurrent (setSensors s i) :=
    getMaxCurrent_congr ea eb ec
  simp only [evalTarget] at h3
  simp only [tick, updateState]
  rw [if_neg (by simpa using h1), if_neg (by simpa using h2), if_pos h3,
      if_neg (by rw [hmc, e5]; exact h4)]
  have hne : (evaluateState (setSensors s i) i.now).1.state ≠ FAULT := by
    simp [e1, h1]
  exact ⟨triggerFault_state _ _ hne, triggerFault_faultType _ _ hne⟩

theorem C9_start_timeout_reports_dry_run_witness :
    let s := { initialPumpState with startCommand := true, startCommandTime := 0,
                                     dryRunProtectionEnabled := false }
    let i : TickIn := ⟨20000, 0, 0, 0, true, 0⟩
    (tick s i).state = FAULT ∧ (tick s i).faultType = DRY_RUN :=
  C9_start_timeout_reports_dry_run
    { initialPumpState with startCommand := true, startCommandTime := 0,
                            dryRunProtectionEnabled := false }
    ⟨20000, 0, 0, 0, true, 0⟩ (by decide) (by decide) (by decide) (by decide)

/-- C10: a sensor read whose bus transaction succeeds but carries an invalid
current value (NaN/Inf or outside `[-0.5, 500]`) resets the
consecutive-failure counter to zero and marks the sensor online before
validation, retaining the last valid current values; an unbroken sequence of
bus-successful reads (whatever their values) never satisfies the SensorFault
escalation guard; and from a clean counter the guard can only become true
after `FL_MAX_MODBUS_FAILURES` (5) consecutive failed bus transactions. -/
theorem C10_invalid_reads_no_sensor_fault (s : SensorSt) (r : ReadIn) (L : List ReadIn)
    (hb : r.busOk = true)
    (hinv : isValidCurrent r.rIa = false ∨ isValidCurrent r.rIb = false
            ∨ isValidCurrent r.rIc = false)
    (hLbus : ∀ x ∈ L, x.busOk = true)
    (hL : L ≠ []) :
    (fl_readSensors s r).1.modbusFailCount = 0
    ∧ (fl_readSensors s r).1.sensorOnline = true
    ∧ (fl_readSensors s r).1.Ia = s.Ia
    ∧ (fl_readSensors s r).1.Ib = s.Ib
    ∧ (fl_readSensors s r).1.Ic = s.Ic
    ∧ (fl_readSensors s r).2 = false
    ∧ ¬ sensorFaultGuard (runReads s L)
    ∧ (∀ (M : List ReadIn) (s0 : SensorSt), s0.modbusFailCount = 0 →
        sensorFaultGuard (runReads s0 M) →
        ∃ M1 M2, M = M1 ++ M2 ∧ M2.length = FL_MAX_MODBUS_FAILURES
          ∧ ∀ x ∈ M2, x.busOk = false) := by
  obtain ⟨hc0, hon⟩ := fl_readSensors_busOk s r hb
  obtain ⟨hia, hib, hic, hret⟩ := fl_readSensors_invalid s r hb hinv
  refine ⟨hc0, hon, hia, hib, hic, hret, ?_, ?_⟩
  · rcases List.eq_nil_or_concat' L with rfl | ⟨M, x, rfl⟩
    · exact absurd rfl hL
    · have hx : x.busOk = true := hLbus x (by simp)
      have hstep : runReads s (M ++ [x]) = (fl_readSensors (runReads s M) x).1 := by
        simp [runReads, List.foldl_append]
      have hon2 := (fl_readSensors_busOk (runReads s M) x hx).2
      rw [hstep]
      simp [sensorFaultGuard, hon2]
  · intro M s0 h0 hguard
    have hk : FL_MAX_MODBUS_FAILURES ≤ (runReads s0 M).modbusFailCount := hguard.2
    have hlen : FL_MAX_MODBUS_FAILURES ≤ M.length := by
      have := runReads_failCount_le M s0
      omega
    exact runReads_fail_suffix M FL_MAX_MODBUS_FAILURES s0 hlen hk

theorem C10_invalid_reads_no_sensor_fault_witness :
    let r : ReadIn := ⟨true, some 230, some 230, some 230, none, some 0, some 0⟩
    (fl_readSensors initialSensorState r).1.modbusFailCount = 0
    ∧ (fl_readSensors initialSensorState r).1.sensorOnline = true
    ∧ (fl_readSensors initialSensorState r).1.Ia = initialSensorState.Ia
    ∧ (fl_readSensors initialSensorState r).1.Ib = initialSensorState.Ib
    ∧ (fl_readSensors initialSensorState r).1.Ic = initialSensorState.Ic
    ∧ (fl_readSensors initialSensorState r).2 = false
    ∧ ¬ sensorFaultGuard (runReads initialSensorState [r])
    ∧ (∀ (M : List ReadIn) (s0 : SensorSt), s0.modbusFailCount = 0 →
        sensorFaultGuard (runReads s0 M) →
        ∃ M1 M2, M = M1 ++ M2 ∧ M2.length = FL_MAX_MODBUS_FAILURES
          ∧ ∀ x ∈ M2, x.busOk = false) :=
  C10_invalid_reads_no_sensor_fault initialSensorState
    ⟨true, some 230, some 230, some 230, none, some 0, some 0⟩
    [⟨true, some 230, some 230, some 230, none, some 0, some 0⟩]
    rfl (Or.inl rfl) (by decide) (by simp)

/-- C1 counterexample: a tick sequence in which overcurrent protection is
enabled, the delay is 0 and phase A stays above `maxCurrentThreshold`, yet
the pump latches `FaultType = SENSOR_FAULT`, not `OVERCURRENT`: when the
sensor has gone offline with `FL_MAX_MODBUS_FAILURES` consecutive bus
failures (the last valid currents being retained above the threshold), the
sensor-fault escalation in `updateState` preempts the overcurrent
classification, and the latched fault never becomes Overcurrent. -/
theorem C1_counterexample :
    initialPumpState.state ≠ FAULT
    ∧ initialPumpState.overcurrentProtectionEnabled = true
    ∧ initialPumpState.overcurrentDelayS = 0
    ∧ (150 : Rat) > initialPumpState.maxCurrentThreshold
    ∧ (runTicks initialPumpState
        [⟨1000, 150, 0, 0, false, 5⟩, ⟨1500, 150, 0, 0, false, 5⟩]).state = FAULT
    ∧ (runTicks initialPumpState
        [⟨1000, 150, 0, 0, false, 5⟩, ⟨1500, 150, 0, 0, false, 5⟩]).faultType = SENSOR_FAULT
    ∧ (runTicks initialPumpState
        [⟨1000, 150, 0, 0, false, 5⟩, ⟨1500, 150, 0, 0, false, 5⟩]).faultType
        ≠ OVERCURRENT := by
  decide

/-- C1 (amended): for every tick sequence in which overcurrent protection is
enabled, at least one phase current exceeds `maxCurrentThreshold`
continuously from the window-opening tick, the sensor stays online (so the
sensor-offline escalation does not preempt), the clock is not earlier than
the window opening, and the last tick occurs at least
`overcurrentDelayS` seconds after the window opened (immediately when the
delay is 0), a pump that is not already in Fault reaches `PumpState = FAULT`
with `FaultType = OVERCURRENT` and the contactor output de-energized, in the
same tick in which the delay elapses. -/
theorem C1_overcurrent_fault (s0 : PumpSt) (first : TickIn) (rest : List TickIn)
    (hstate : s0.state ≠ FAULT)
    (hact : s0.overcurrentConditionActive = false)
    (he : s0.overcurrentProtectionEnabled = true)
    (hg : ∀ i ∈ first :: rest, goodIn s0.maxCurrentThreshold first.now i)
    (helapsed : s0.overcurrentDelayS * 1000
        ≤ ((first :: rest).getLast (List.cons_ne_nil first rest)).now - first.now) :
    ocFaulted (runTicks s0 (first :: rest)) := by
  have hfirst := tick_oc s0.maxCurrentThreshold s0.overcurrentDelayS first.now s0 first
      he rfl rfl (Or.inl ⟨hstate, Or.inr ⟨hact, rfl⟩⟩) (hg first (by simp))
  rcases List.eq_nil_or_concat' rest with rfl | ⟨M, j, rfl⟩
  · have h0 : s0.overcurrentDelayS * 1000 ≤ first.now - first.now := by
      simpa using helapsed
    simpa [runTicks] using hfirst.2 h0
  · have hgood : ∀ i ∈ M, goodIn s0.maxCurrentThreshold first.now i := fun i hi =>
      hg i (by simp [hi])
    have hmid := runTicks_ocInv s0.maxCurrentThreshold s0.overcurrentDelayS first.now M
      (tick s0 first) hfirst.1 hgood
    have hcase : ((runTicks (tick s0 first) M).state ≠ FAULT
        ∧ (((runTicks (tick s0 first) M).overcurrentConditionActive = true
            ∧ (runTicks (tick s0 first) M).overcurrentStartTime = first.now)
           ∨ ((runTicks (tick s0 first) M).overcurrentConditionActive = false
              ∧ first.now = j.now)))
        ∨ ocFaulted (runTicks (tick s0 first) M) :=
      hmid.2.2.2.elim (fun hl => Or.inl ⟨hl.1, Or.inl ⟨hl.2.1, hl.2.2⟩⟩) Or.inr
    have hstepj := tick_oc s0.maxCurrentThreshold s0.overcurrentDelayS first.now
      (runTicks (tick s0 first) M) j hmid.1 hmid.2.1 hmid.2.2.1 hcase (hg j (by simp))
    have hlast : ((first :: (M ++ [j])).getLast (List.cons_ne_nil first (M ++ [j]))).now
        = j.now := by
      have hget : (first :: (M ++ [j])).getLast (List.cons_ne_nil first (M ++ [j])) = j := by
        simp [List.getLast_append]
      rw [hget]
    have helj : s0.overcurrentDelayS * 1000 ≤ j.now - first.now := by
      rw [← hlast]
      exact helapsed
    have hrun : runTicks s0 (first :: (M ++ [j])) = tick (runTicks (tick s0 first) M) j := by
      simp [runTicks, List.foldl_append]
    rw [hrun]
    exact hstepj.2 helj

theorem C1_overcurrent_fault_witness :
    ocFaulted (runTicks initialPumpState [⟨1000, 150, 0, 0, true, 0⟩]) :=
  C1_overcurrent_fault initialPumpState ⟨1000, 150, 0, 0, true, 0⟩ []
    (by decide) rfl rfl
    (by
      intro i hi
      rw [List.mem_singleton.mp hi]
      exact ⟨Or.inl (by decide), rfl, Nat.le_refl _⟩)
    (by decide)

end FieldLink
